import Mathlib

/-!
Verification of the notebook "Using External Tables from BigQuery".

The notebook is straight-line glue code: fetch a CSV over HTTP, write it to an
object-store bucket, declare a BigQuery external data source (CSV options with
skip_leading_rows = 1, an explicit 7-column schema, max_bad_records = 10), run
the query `SELECT * FROM drivedatasource LIMIT 5` with the alias bound to that
descriptor, then delete the object and the bucket.

The client library (google.datalab) and the remote services (HTTP, Cloud
Storage, the BigQuery engine) are not part of the repository; they are
modelled from the spec.  The notebook's own code (the order of the calls, the
literal schema, the literal SQL string, the absence of any try/except around
the pipeline calls) is embedded faithfully from the source.
-/

/-- Character-level splitter used to model CSV line/field splitting and SQL
tokenisation; structural recursion so that the kernel can evaluate it. -/
def splitCharAux (c : Char) : List Char → List (List Char)
  | [] => [[]]
  | x :: xs =>
    match splitCharAux c xs with
    | [] => if x = c then [[], []] else [[x]]
    | y :: ys => if x = c then [] :: y :: ys else (x :: y) :: ys

/-- Split a string at every occurrence of the separator character. -/
def splitChar (c : Char) (s : String) : List String :=
  (splitCharAux c s.data).map List.asString

/-- Decimal digit test on characters. -/
def isDigit (c : Char) : Bool := decide ('0' ≤ c) && decide (c ≤ '9')

/-- Accumulate a decimal numeral; fails on any non-digit character. -/
def digitsToNat (acc : Nat) : List Char → Option Nat
  | [] => some acc
  | c :: cs =>
    if isDigit c then digitsToNat (acc * 10 + (c.toNat - Char.toNat '0')) cs
    else none

/-- Modelled from the spec: the warehouse's INTEGER literal syntax — an
optional minus sign followed by one or more decimal digits. -/
def parseIntLit (cs : List Char) : Option Int :=
  match cs with
  | [] => none
  | '-' :: rest =>
    match rest with
    | [] => none
    | _ => (digitsToNat 0 rest).map (fun n => -(n : Int))
  | _ => (digitsToNat 0 cs).map Int.ofNat

/-- Consume a maximal run of decimal digits, returning how many were read. -/
def takeDigits : List Char → Nat × List Char
  | [] => (0, [])
  | c :: cs =>
    if isDigit c then
      match takeDigits cs with
      | (n, r) => (n + 1, r)
    else (0, c :: cs)

/-- Modelled from the spec: the warehouse's FLOAT literal syntax — an optional
minus sign, one or more digits, and an optional fractional part. -/
def isFloatLit (cs : List Char) : Bool :=
  let body := match cs with
    | '-' :: r => r
    | _ => cs
  match takeDigits body with
  | (0, _) => false
  | (_ + 1, r) =>
    match r with
    | [] => true
    | '.' :: r2 =>
      match takeDigits r2 with
      | (0, _) => false
      | (_ + 1, r3) => r3.isEmpty
    | _ => false

/-- The SQL column types named by the notebook's schema declaration. -/
inductive BQType where
  | INTEGER
  | STRING
  | FLOAT
deriving DecidableEq

/-- One (column name, column type) entry of a schema descriptor. -/
structure SchemaField where
  name : String
  type : BQType
deriving DecidableEq

/-- A typed cell value produced by applying the schema to a CSV field.
FLOAT cells keep their literal spelling: no claim needs float arithmetic,
only that the field parses as a float and is typed FLOAT. -/
inductive Value where
  | vint (i : Int)
  | vstr (s : String)
  | vfloat (lit : String)
deriving DecidableEq

/-- The declared type of a cell value. -/
def Value.typeOf : Value → BQType
  | .vint _ => .INTEGER
  | .vstr _ => .STRING
  | .vfloat _ => .FLOAT

/-- Modelled from the spec: how the engine parses one CSV field at the
declared type (unparsable fields make the row malformed). -/
def parseField (t : BQType) (s : String) : Option Value :=
  match t with
  | .INTEGER => (parseIntLit s.data).map Value.vint
  | .STRING => some (Value.vstr s)
  | .FLOAT => if isFloatLit s.data then some (Value.vfloat s) else none

/-- Parse a list of CSV fields against a schema positionally; fails when the
field count differs from the schema length or some field fails to parse. -/
def parseFields : List SchemaField → List String → Option (List Value)
  | [], [] => some []
  | f :: fs, s :: ss =>
    match parseField f.type s with
    | none => none
    | some v =>
      match parseFields fs ss with
      | none => none
      | some vs => some (v :: vs)
  | [], _ :: _ => none
  | _ :: _, [] => none

/-- Parse one CSV line against the schema (comma-separated fields). -/
def parseRow (schema : List SchemaField) (line : String) : Option (List Value) :=
  parseFields schema (splitChar ',' line)

/-- CSV dialect options as declared in the notebook: the recognized option is
the leading-row skip count. -/
structure CSVOptions where
  skip_leading_rows : Nat
deriving DecidableEq

/-- The external table descriptor: source URI, dialect options, schema, and
the malformed-row tolerance. -/
structure ExternalDataSource where
  source : String
  csv_options : CSVOptions
  schema : List SchemaField
  max_bad_records : Nat
deriving DecidableEq

/-- Modelled from the spec: the library constructor for the descriptor, a pure
in-memory construction validating only structural well-formedness (schema
non-empty, max-bad-records non-negative). -/
def mkExternalDataSource (source : String) (csv_options : CSVOptions)
    (schema : List SchemaField) (max_bad_records : Int) : Option ExternalDataSource :=
  if schema ≠ [] ∧ 0 ≤ max_bad_records then
    some ⟨source, csv_options, schema, max_bad_records.toNat⟩
  else none

/-- The per-line parse results of a CSV text after dropping the skipped
leading rows. -/
def parsedLines (skip : Nat) (schema : List SchemaField) (text : String) :
    List (Option (List Value)) :=
  ((splitChar '\n' text).drop skip).map (parseRow schema)

/-- Number of malformed data rows of a CSV text under a schema. -/
def badCount (skip : Nat) (schema : List SchemaField) (text : String) : Nat :=
  ((parsedLines skip schema text).filter Option.isNone).length

/-- Modelled from the spec: the engine reads the object per the dialect and
applies the schema, tolerating up to max-bad-records malformed rows (which
are dropped) and failing beyond that tolerance. -/
def applySchema (skip : Nat) (maxBad : Nat) (schema : List SchemaField)
    (text : String) : Except String (List (List Value)) :=
  if badCount skip schema text ≤ maxBad then
    .ok ((parsedLines skip schema text).filterMap id)
  else .error "too many bad records"

/-- Column selection of a query: `*` or an explicit comma-separated list. -/
inductive Selection where
  | star
  | cols (names : List String)
deriving DecidableEq

/-- The supported SQL shape: SELECT sel FROM table LIMIT n. -/
structure SQLQuery where
  sel : Selection
  table : String
  limit : Nat
deriving DecidableEq

/-- Position of a named column in the schema. -/
def findIdx (n : String) : List SchemaField → Option Nat
  | [] => none
  | f :: fs => if f.name = n then some 0 else (findIdx n fs).map (· + 1)

/-- Project one row onto a list of column names, resolved against the schema. -/
def projectRow (schema : List SchemaField) (names : List String)
    (row : List Value) : Option (List Value) :=
  names.mapM (fun n => (findIdx n schema).bind (fun i => row.get? i))

/-- Apply a selection to all rows. -/
def projectRows (schema : List SchemaField) (sel : Selection)
    (rows : List (List Value)) : Option (List (List Value)) :=
  match sel with
  | .star => some rows
  | .cols names => rows.mapM (projectRow schema names)

/-- Modelled from the spec: parse the submitted SQL text of the shape
`SELECT cols FROM alias LIMIT n` into its three parts. -/
def parseSQL (s : String) : Option SQLQuery :=
  match splitChar ' ' s with
  | ["SELECT", colSpec, "FROM", table, "LIMIT", n] =>
    match n.data with
    | [] => none
    | _ => (digitsToNat 0 n.data).map (fun lim =>
        ⟨if colSpec = "*" then .star else .cols (splitChar ',' colSpec), table, lim⟩)
  | _ => none

/-- The table aliases referenced by a SQL text of the supported shape. -/
def tableRefsOf (s : String) : List String :=
  match parseSQL s with
  | some q => [q.table]
  | none => []

/-- The object store: a map from object URI to stored contents (byte buffers
are modelled as strings of bytes). -/
abbrev Store := List (String × String)

/-- Write a buffer to a named object, replacing any previous version. -/
def writeObject (st : Store) (uri : String) (contents : String) : Store :=
  (uri, contents) :: st

/-- Read an object's contents back from the store. -/
def readObject (st : Store) (uri : String) : Option String :=
  match st with
  | [] => none
  | (k, v) :: r => if k = uri then some v else readObject r uri

/-- Remove an object from the store. -/
def removeObject (st : Store) (uri : String) : Store :=
  st.filter (fun p => !(p.1 == uri))

/-- Look an alias up in the data_sources binding. -/
def lookupDS (a : String) : List (String × ExternalDataSource) → Option ExternalDataSource
  | [] => none
  | (k, v) :: r => if k = a then some v else lookupDS a r

/-- Modelled from the spec: the remote query engine — resolve the alias to
its descriptor, read the referenced object, apply the dialect and schema
(within the malformed-row tolerance), execute the selection, and apply the
LIMIT. -/
def runQuery (sql : String) (sources : List (String × ExternalDataSource))
    (st : Store) : Except String (List (List Value)) :=
  match parseSQL sql with
  | none => .error "malformed SQL"
  | some q =>
    match lookupDS q.table sources with
    | none => .error "unresolved table alias"
    | some d =>
      match readObject st d.source with
      | none => .error "object not found"
      | some text =>
        match applySchema d.csv_options.skip_leading_rows d.max_bad_records d.schema text with
        | .error e => .error e
        | .ok rows =>
          match projectRows d.schema q.sel rows with
          | none => .error "unknown column"
          | some chosen => .ok (chosen.take q.limit)

/-- The CSV options literal of the notebook: skip the single header row. -/
def notebookOptions : CSVOptions := ⟨1⟩

/-- The 7-column schema literal of the notebook. -/
def notebookSchema : List SchemaField :=
  [⟨"id", .INTEGER⟩, ⟨"name", .STRING⟩, ⟨"terminal", .STRING⟩,
   ⟨"lat", .FLOAT⟩, ⟨"long", .FLOAT⟩, ⟨"dockcount", .INTEGER⟩,
   ⟨"online", .STRING⟩]

/-- The bucket name built by the notebook from the ambient project id. -/
def sampleBucketName (project : String) : String := project ++ "-station_data"

/-- The URI of the object the notebook writes: gs scheme, bucket, object name. -/
def sampleObjectUri (project : String) : String :=
  "gs://" ++ sampleBucketName project ++ "/station_data.csv"

/-- The SQL text submitted by the notebook. -/
def notebookSQL : String := "SELECT * FROM drivedatasource LIMIT 5"

/-- The descriptor value the notebook constructs (source = the stored
object's URI, the notebook's options and schema, max_bad_records = 10). -/
def notebookDescriptor (project : String) : ExternalDataSource :=
  ⟨sampleObjectUri project, notebookOptions, notebookSchema, 10⟩

/-- The data_sources binding passed with the notebook's query. -/
def notebookDataSources (d : ExternalDataSource) : List (String × ExternalDataSource) :=
  [("drivedatasource", d)]

/-- Modelled from the spec: the header line of the remote CSV file (the file
itself is not in the repository; the spec records its literal header). -/
def csvHeaderLine : String := "id,name,terminal,lat,long,dockcount,online"

/-- The literal data row of the spec's end-to-end scenario. -/
def scenarioDataRow : String :=
  "4,2nd Ave & Blanchard St,BT-05,47.61311,-122.344208,14,10/13/2014"

/-- The scenario CSV: the header line followed by the single data row. -/
def scenarioCSV : String := csvHeaderLine ++ "\n" ++ scenarioDataRow

/-- C1: end-to-end scenario — with the notebook's 7-column schema and
skip_leading_rows = 1, querying `SELECT id,name FROM t LIMIT 1` with alias t
bound to the descriptor over the scenario CSV returns exactly the one row
(4, "2nd Ave & Blanchard St"). -/
theorem c1_end_to_end_scenario :
    runQuery "SELECT id,name FROM t LIMIT 1"
        [("t", notebookDescriptor "p")]
        (writeObject [] (sampleObjectUri "p") scenarioCSV)
      = .ok [[Value.vint 4, Value.vstr "2nd Ave & Blanchard St"]] := by
  rfl

/-- C6: the declared schema lists exactly the CSV's column names, in the
CSV's left-to-right order, 7 columns in all. -/
theorem c6_schema_csv_alignment :
    notebookSchema.map SchemaField.name = splitChar ',' csvHeaderLine
      ∧ notebookSchema.length = 7
      ∧ (splitChar ',' csvHeaderLine).length = 7 := by
  refine ⟨?_, rfl, rfl⟩
  rfl

/-- Errors raised by remote calls, passed through as opaque messages. -/
abbrev Err := String

/-- Outcomes of the remote calls the notebook makes, one slot per call, in
source order: urlopen, f.read, bucket.create, object.write_stream, the
remote query job, object.delete, bucket.delete. -/
structure Env where
  openOk : Except Err Unit
  readOk : Except Err String
  createOk : Except Err Unit
  writeOk : Except Err Unit
  queryOk : Except Err Unit
  deleteObjOk : Except Err Unit
  deleteBucketOk : Except Err Unit

/-- The observable state the notebook's pipeline builds up. -/
structure NotebookState where
  connOpen : Bool
  data : Option String
  bucketCreated : Bool
  store : Store
  descriptor : Option ExternalDataSource
  queryResult : Option (List (List Value))
  objectDeleted : Bool
  bucketDeleted : Bool

/-- The state before any cell runs. -/
def initState : NotebookState :=
  ⟨false, none, false, [], none, none, false, false⟩

/-- Cell 2 of the notebook, embedded line by line: `f = urlopen(data_source)`
opens the connection, `data = f.read()` reads the body, and only then the
straight-line `f.close()` runs — a read failure propagates before the close
statement is reached. -/
def stepFetch (env : Env) (s : NotebookState) : Except Err Unit × NotebookState :=
  match env.openOk with
  | .error e => (.error e, s)
  | .ok _ =>
    match env.readOk with
    | .error e => (.error e, { s with connOpen := true })
    | .ok d => (.ok (), { s with connOpen := false, data := some d })

/-- Cell 3: `sample_bucket.create()` then
`sample_object.write_stream(data, 'text/plain')`, writing the fetched buffer
unchanged to the object's URI. -/
def stepStore (project : String) (env : Env) (s : NotebookState) :
    Except Err Unit × NotebookState :=
  match env.createOk with
  | .error e => (.error e, s)
  | .ok _ =>
    match s.data with
    | none => (.error "data is not defined", { s with bucketCreated := true })
    | some d =>
      match env.writeOk with
      | .error e => (.error e, { s with bucketCreated := true })
      | .ok _ =>
        (.ok (), { s with bucketCreated := true,
                          store := writeObject s.store (sampleObjectUri project) d })

/-- Cell 4: construct the CSVOptions, the Schema and the ExternalDataSource;
a pure in-memory construction touching no remote state. -/
def stepDeclare (project : String) (s : NotebookState) :
    Except Err Unit × NotebookState :=
  (.ok (), { s with descriptor :=
      mkExternalDataSource (sampleObjectUri project) notebookOptions notebookSchema 10 })

/-- Cell 5: submit the notebook's SQL with data_sources binding the alias
drivedatasource to the constructed descriptor, and block on the result. -/
def stepQuery (env : Env) (s : NotebookState) : Except Err Unit × NotebookState :=
  match env.queryOk with
  | .error e => (.error e, s)
  | .ok _ =>
    match s.descriptor with
    | none => (.error "drivedata is not defined", s)
    | some d =>
      match runQuery notebookSQL (notebookDataSources d) s.store with
      | .error e => (.error e, s)
      | .ok rows => (.ok (), { s with queryResult := some rows })

/-- Cell 6: `sample_object.delete()` then `sample_bucket.delete()`. -/
def stepCleanup (project : String) (env : Env) (s : NotebookState) :
    Except Err Unit × NotebookState :=
  match env.deleteObjOk with
  | .error e => (.error e, s)
  | .ok _ =>
    match env.deleteBucketOk with
    | .error e =>
      (.error e, { s with store := removeObject s.store (sampleObjectUri project),
                          objectDeleted := true })
    | .ok _ =>
      (.ok (), { s with store := removeObject s.store (sampleObjectUri project),
                        objectDeleted := true,
                        bucketCreated := false, bucketDeleted := true })

/-- Sequencing of notebook cells: a failed cell stops the run and its error
reaches the operator unchanged. -/
def seqStep (r : Except Err Unit × NotebookState)
    (step : NotebookState → Except Err Unit × NotebookState) :
    Except Err Unit × NotebookState :=
  match r with
  | (.error e, s) => (.error e, s)
  | (.ok _, s) => step s

/-- The run through fetch, store and declare. -/
def phase1 (project : String) (env : Env) : Except Err Unit × NotebookState :=
  seqStep (seqStep (stepFetch env initState) (stepStore project env)) (stepDeclare project)

/-- The run through the query cell included. -/
def phase2 (project : String) (env : Env) : Except Err Unit × NotebookState :=
  seqStep (phase1 project env) (stepQuery env)

/-- The whole notebook run, cleanup included. -/
def runNotebook (project : String) (env : Env) : Except Err Unit × NotebookState :=
  seqStep (phase2 project env) (stepCleanup project env)

/-- An environment in which every remote call succeeds and the fetch returns
the buffer "CSVBYTES". -/
def envHappy : Env :=
  ⟨.ok (), .ok "CSVBYTES", .ok (), .ok (), .ok (), .ok (), .ok ()⟩

/-- An environment in which the connection opens but the body read fails. -/
def envReadFail : Env :=
  ⟨.ok (), .error "connection reset", .ok (), .ok (), .ok (), .ok (), .ok ()⟩

/-- An environment in which the initial urlopen itself fails. -/
def envOpenFail : Env :=
  ⟨.error "network unreachable", .ok "", .ok (), .ok (), .ok (), .ok (), .ok ()⟩

/-- An environment in which the remote query job fails and everything else
succeeds. -/
def envQueryFail : Env :=
  ⟨.ok (), .ok "somedata", .ok (), .ok (), .error "query job failed", .ok (), .ok ()⟩

/-- C2: the store applies no transformation — reading the stored object back
returns exactly the written buffer, and in the pipeline the bytes read back
from the object equal the bytes fetched from the source. -/
theorem c2_store_roundtrip :
    (∀ (st : Store) (u buf : String), readObject (writeObject st u buf) u = some buf)
    ∧ (∀ (p : String) (env : Env) (d : String),
        env.openOk = .ok () → env.readOk = .ok d →
        env.createOk = .ok () → env.writeOk = .ok () →
        readObject ((stepStore p env (stepFetch env initState).2).2).store
            (sampleObjectUri p) = some d) := by
  constructor
  · intro st u buf
    simp [readObject, writeObject]
  · intro p env d h1 h2 h3 h4
    simp [stepFetch, stepStore, h1, h2, h3, h4, initState, writeObject, readObject]

/-- C2 witness: at a concrete happy-path environment the buffer read back is
the fetched buffer. -/
theorem c2_store_roundtrip_witness :
    readObject ((stepStore "p" envHappy (stepFetch envHappy initState).2).2).store
        (sampleObjectUri "p") = some "CSVBYTES" :=
  c2_store_roundtrip.2 "p" envHappy "CSVBYTES" rfl rfl rfl rfl

/-- C3 counterexample: in the environment where the read fails, the run stops
with the read error while the connection is still open — f.close() is not
reached, so the close is not guaranteed on the error path. -/
theorem c3_counterexample :
    (runNotebook "p" envReadFail).1 = .error "connection reset"
      ∧ (runNotebook "p" envReadFail).2.connOpen = true := by
  exact ⟨rfl, rfl⟩

/-- C3 amended: the close runs only on the success path — after a successful
read the connection is closed, but when the read fails the error propagates
with the connection left open. -/
theorem c3_close_only_on_success (env : Env) (s : NotebookState)
    (h : env.openOk = .ok ()) :
    (∀ d, env.readOk = .ok d →
        (stepFetch env s).1 = .ok () ∧ (stepFetch env s).2.connOpen = false)
    ∧ (∀ e, env.readOk = .error e →
        (stepFetch env s).1 = .error e ∧ (stepFetch env s).2.connOpen = true) := by
  constructor
  · intro d hd
    simp [stepFetch, h, hd]
  · intro e he
    simp [stepFetch, h, he]

/-- C3 witness: at the concrete read-failure environment the connection stays
open. -/
theorem c3_close_only_on_success_witness :
    (stepFetch envReadFail initState).2.connOpen = true :=
  ((c3_close_only_on_success envReadFail initState rfl).2 "connection reset" rfl).2

/-- C8: every failing remote call makes its step return that error unchanged
(no catch, no wrap, no retry), and the cell sequencing forwards an error to
the caller without running later cells. -/
theorem c8_error_pass_through (p : String) (env : Env) (s : NotebookState) (e : Err) :
    (env.openOk = .error e → stepFetch env s = (.error e, s))
    ∧ (env.openOk = .ok () → env.readOk = .error e →
        stepFetch env s = (.error e, { s with connOpen := true }))
    ∧ (env.createOk = .error e → stepStore p env s = (.error e, s))
    ∧ (∀ d, env.createOk = .ok () → s.data = some d → env.writeOk = .error e →
        stepStore p env s = (.error e, { s with bucketCreated := true }))
    ∧ (env.queryOk = .error e → stepQuery env s = (.error e, s))
    ∧ (env.deleteObjOk = .error e → stepCleanup p env s = (.error e, s))
    ∧ (env.deleteObjOk = .ok () → env.deleteBucketOk = .error e →
        stepCleanup p env s = (.error e,
          { s with store := removeObject s.store (sampleObjectUri p),
                   objectDeleted := true }))
    ∧ (∀ k, seqStep (Except.error e, s) k = (Except.error e, s)) := by
  refine ⟨?_, ?_, ?_, ?_, ?_, ?_, ?_, ?_⟩
  · intro h; simp [stepFetch, h]
  · intro h1 h2; simp [stepFetch, h1, h2]
  · intro h; simp [stepStore, h]
  · intro d h1 h2 h3; simp [stepStore, h1, h2, h3]
  · intro h; simp [stepQuery, h]
  · intro h; simp [stepCleanup, h]
  · intro h1 h2; simp [stepCleanup, h1, h2]
  · intro k; rfl

/-- C8 witness: a concrete failing urlopen propagates its error unchanged. -/
theorem c8_error_pass_through_witness :
    stepFetch envOpenFail initState = (.error "network unreachable", initState) :=
  (c8_error_pass_through "p" envOpenFail initState "network unreachable").1 rfl

/-- The fetch cell never touches the delete flags. -/
lemma stepFetch_flags (env : Env) (s : NotebookState) :
    (stepFetch env s).2.objectDeleted = s.objectDeleted
      ∧ (stepFetch env s).2.bucketDeleted = s.bucketDeleted := by
  unfold stepFetch
  cases env.openOk with
  | error e => exact ⟨rfl, rfl⟩
  | ok u =>
    cases env.readOk with
    | error e => exact ⟨rfl, rfl⟩
    | ok d => exact ⟨rfl, rfl⟩

/-- The store cell never touches the delete flags. -/
lemma stepStore_flags (p : String) (env : Env) (s : NotebookState) :
    (stepStore p env s).2.objectDeleted = s.objectDeleted
      ∧ (stepStore p env s).2.bucketDeleted = s.bucketDeleted := by
  unfold stepStore
  cases env.createOk with
  | error e => exact ⟨rfl, rfl⟩
  | ok u =>
    cases s.data with
    | none => exact ⟨rfl, rfl⟩
    | some d =>
      cases env.writeOk with
      | error e => exact ⟨rfl, rfl⟩
      | ok u2 => exact ⟨rfl, rfl⟩

/-- The declare cell never touches the delete flags. -/
lemma stepDeclare_flags (p : String) (s : NotebookState) :
    (stepDeclare p s).2.objectDeleted = s.objectDeleted
      ∧ (stepDeclare p s).2.bucketDeleted = s.bucketDeleted :=
  ⟨rfl, rfl⟩

/-- The query cell never touches the delete flags. -/
lemma stepQuery_flags (env : Env) (s : NotebookState) :
    (stepQuery env s).2.objectDeleted = s.objectDeleted
      ∧ (stepQuery env s).2.bucketDeleted = s.bucketDeleted := by
  obtain ⟨o, r, c, w, q, dO, dB⟩ := env
  obtain ⟨co, da, bc, st, de, qr, od, bd⟩ := s
  cases q with
  | error e => exact ⟨rfl, rfl⟩
  | ok u =>
    cases de with
    | none => exact ⟨rfl, rfl⟩
    | some d =>
      cases hq : runQuery notebookSQL (notebookDataSources d) st with
      | error e => simp [stepQuery, hq]
      | ok rows => simp [stepQuery, hq]

/-- Sequencing preserves any field a step preserves. -/
lemma seqStep_flags (r : Except Err Unit × NotebookState)
    (f : NotebookState → Except Err Unit × NotebookState)
    (hf : ∀ s, (f s).2.objectDeleted = s.objectDeleted
        ∧ (f s).2.bucketDeleted = s.bucketDeleted) :
    (seqStep r f).2.objectDeleted = r.2.objectDeleted
      ∧ (seqStep r f).2.bucketDeleted = r.2.bucketDeleted := by
  obtain ⟨res, s⟩ := r
  cases res with
  | error e => exact ⟨rfl, rfl⟩
  | ok u => simpa [seqStep] using hf s

/-- Before the cleanup cell no delete flag has been set. -/
lemma phase2_flags (p : String) (env : Env) :
    (phase2 p env).2.objectDeleted = false
      ∧ (phase2 p env).2.bucketDeleted = false := by
  have h1 := stepFetch_flags env initState
  have h2 := seqStep_flags (stepFetch env initState) (stepStore p env)
      (stepStore_flags p env)
  have h3 := seqStep_flags (seqStep (stepFetch env initState) (stepStore p env))
      (stepDeclare p) (stepDeclare_flags p)
  have h4 := seqStep_flags
      (seqStep (seqStep (stepFetch env initState) (stepStore p env)) (stepDeclare p))
      (stepQuery env) (stepQuery_flags env)
  unfold phase2 phase1
  constructor
  · rw [h4.1, h3.1, h2.1, h1.1]
    rfl
  · rw [h4.2, h3.2, h2.2, h1.2]
    rfl

/-- C9: the two deletes are reached only after the query cell returns
successfully — whenever the run fails at or before the query, the final
state is the pre-cleanup state with neither delete executed; and a set
delete flag implies the query phase succeeded (and for the bucket delete,
that the object delete also succeeded). -/
theorem c9_no_cleanup_on_failure (p : String) (env : Env) :
    (∀ e, (phase2 p env).1 = .error e →
        runNotebook p env = (.error e, (phase2 p env).2)
          ∧ (runNotebook p env).2.objectDeleted = false
          ∧ (runNotebook p env).2.bucketDeleted = false)
    ∧ ((runNotebook p env).2.objectDeleted = true → (phase2 p env).1 = .ok ())
    ∧ ((runNotebook p env).2.bucketDeleted = true →
        (phase2 p env).1 = .ok () ∧ env.deleteObjOk = .ok ()) := by
  have hfl := phase2_flags p env
  refine ⟨?_, ?_, ?_⟩
  · intro e he
    have hrun : runNotebook p env = (.error e, (phase2 p env).2) := by
      unfold runNotebook
      rcases h2 : phase2 p env with ⟨res, s⟩
      rw [h2] at he
      simp only at he
      subst he
      rfl
    refine ⟨hrun, ?_, ?_⟩
    · rw [hrun]; exact hfl.1
    · rw [hrun]; exact hfl.2
  · intro hod
    rcases h2 : phase2 p env with ⟨res, s⟩
    cases res with
    | error e =>
      exfalso
      have hr : (runNotebook p env).2.objectDeleted = false := by
        unfold runNotebook
        rw [h2]
        have := hfl.1
        rw [h2] at this
        simpa [seqStep] using this
      rw [hr] at hod
      exact absurd hod (by decide)
    | ok u =>
      cases u
      rfl
  · intro hbd
    rcases h2 : phase2 p env with ⟨res, s⟩
    cases res with
    | error e =>
      exfalso
      have hr : (runNotebook p env).2.bucketDeleted = false := by
        unfold runNotebook
        rw [h2]
        have := hfl.2
        rw [h2] at this
        simpa [seqStep] using this
      rw [hr] at hbd
      exact absurd hbd (by decide)
    | ok u =>
      cases u
      refine ⟨rfl, ?_⟩
      cases hdo : env.deleteObjOk with
      | ok v => cases v; rfl
      | error e =>
        exfalso
        have hr : (runNotebook p env).2 = s := by
          unfold runNotebook
          rw [h2]
          simp [seqStep, stepCleanup, hdo]
        have hsf : s.bucketDeleted = false := by
          have := hfl.2
          rw [h2] at this
          simpa using this
        rw [hr, hsf] at hbd
        exact absurd hbd (by decide)

/-- C9 witness: at the concrete environment where the query job fails, the
object delete never runs. -/
theorem c9_no_cleanup_on_failure_witness :
    (runNotebook "p" envQueryFail).2.objectDeleted = false :=
  (((c9_no_cleanup_on_failure "p" envQueryFail).1 "query job failed" rfl).2).1

/-- C7: the declarator is a pure in-memory construction — the declare cell
only sets the descriptor field of the state (no store access, no failure) —
and under the preconditions (non-empty schema, non-negative max-bad-records)
it yields a descriptor whose fields are exactly the inputs, and the later
query and cleanup cells leave the held descriptor unchanged. -/
theorem c7_declarator_pure_immutable (src : String) (opts : CSVOptions)
    (sch : List SchemaField) (mbr : Int) (h1 : sch ≠ []) (h2 : 0 ≤ mbr) :
    (∀ p s, stepDeclare p s =
        (.ok (), { s with descriptor :=
            mkExternalDataSource (sampleObjectUri p) notebookOptions notebookSchema 10 }))
    ∧ ∃ d, mkExternalDataSource src opts sch mbr = some d
        ∧ d.source = src ∧ d.csv_options = opts ∧ d.schema = sch
        ∧ (d.max_bad_records : Int) = mbr
        ∧ ∀ p env s, s.descriptor = some d →
            (stepQuery env s).2.descriptor = some d
              ∧ (stepCleanup p env s).2.descriptor = some d := by
  constructor
  · intro p s
    rfl
  · refine ⟨⟨src, opts, sch, mbr.toNat⟩, ?_, rfl, rfl, rfl, ?_, ?_⟩
    · unfold mkExternalDataSource
      rw [if_pos ⟨h1, h2⟩]
    · exact Int.toNat_of_nonneg h2
    · intro p env s hs
      constructor
      · obtain ⟨o, r, c, w, q, dO, dB⟩ := env
        obtain ⟨co, da, bc, st, de, qr, od, bd⟩ := s
        simp only at hs
        subst hs
        cases q with
        | error e => rfl
        | ok u =>
          cases hq : runQuery notebookSQL
              (notebookDataSources ⟨src, opts, sch, mbr.toNat⟩) st with
          | error e => simp [stepQuery, hq]
          | ok rows => simp [stepQuery, hq]
      · obtain ⟨o, r, c, w, q, dO, dB⟩ := env
        cases dO with
        | error e => exact hs
        | ok u =>
          cases dB with
          | error e => exact hs
          | ok u2 => exact hs

/-- C7 witness: the notebook's own arguments satisfy the preconditions and
the constructor succeeds on them. -/
theorem c7_declarator_pure_immutable_witness :
    (mkExternalDataSource (sampleObjectUri "p") notebookOptions notebookSchema 10).isSome
      = true := by
  obtain ⟨-, d, hd, -⟩ := c7_declarator_pure_immutable (sampleObjectUri "p")
    notebookOptions notebookSchema 10 (by decide) (by decide)
  rw [hd]
  rfl

/-- Writing then reading the same URI returns the written buffer. -/
lemma readObject_writeObject (st : Store) (u v : String) :
    readObject (writeObject st u v) u = some v := by
  simp [readObject, writeObject]

/-- C10: the notebook's SQL references exactly the alias drivedatasource, the
data_sources binding has exactly that key bound to the descriptor, the
descriptor's source is the URI of the stored object, and every alias in the
query resolves in the binding. -/
theorem c10_alias_binding_consistency (p : String) :
    tableRefsOf notebookSQL = ["drivedatasource"]
      ∧ (notebookDataSources (notebookDescriptor p)).map Prod.fst = ["drivedatasource"]
      ∧ lookupDS "drivedatasource" (notebookDataSources (notebookDescriptor p))
          = some (notebookDescriptor p)
      ∧ (notebookDescriptor p).source = sampleObjectUri p
      ∧ sampleObjectUri p = "gs://" ++ (p ++ "-station_data") ++ "/station_data.csv"
      ∧ ∀ a ∈ tableRefsOf notebookSQL,
          (lookupDS a (notebookDataSources (notebookDescriptor p))).isSome = true := by
  refine ⟨rfl, rfl, rfl, rfl, rfl, ?_⟩
  intro a ha
  rw [show tableRefsOf notebookSQL = ["drivedatasource"] from rfl] at ha
  simp only [List.mem_singleton] at ha
  subst ha
  rfl

/-- C10 witness: the concrete alias list of the notebook's SQL. -/
theorem c10_alias_binding_consistency_witness :
    tableRefsOf notebookSQL = ["drivedatasource"] :=
  (c10_alias_binding_consistency "p").1

/-- On the notebook's query and binding, the engine reduces to applying the
schema (with skip 1, tolerance 10) to the stored text and taking 5 rows. -/
lemma runQuery_notebook (p text : String) :
    runQuery notebookSQL (notebookDataSources (notebookDescriptor p))
        (writeObject [] (sampleObjectUri p) text)
      = match applySchema 1 10 notebookSchema text with
        | Except.error e => Except.error e
        | Except.ok rows => Except.ok (rows.take 5) := by
  cases happ : applySchema 1 10 notebookSchema text with
  | error e =>
    simp [runQuery,
      show parseSQL notebookSQL = some ⟨Selection.star, "drivedatasource", 5⟩ from rfl,
      lookupDS, notebookDataSources, notebookDescriptor, notebookOptions,
      readObject, writeObject, happ]
  | ok rows =>
    simp [runQuery,
      show parseSQL notebookSQL = some ⟨Selection.star, "drivedatasource", 5⟩ from rfl,
      lookupDS, notebookDataSources, notebookDescriptor, notebookOptions,
      readObject, writeObject, happ, projectRows]

/-- C4: with the descriptor declared with max_bad_records = 10, the query
over a stored CSV succeeds exactly when its malformed-row count is at most
10. -/
theorem c4_max_bad_records_tolerance (p text : String) :
    (∃ rows, runQuery notebookSQL (notebookDataSources (notebookDescriptor p))
        (writeObject [] (sampleObjectUri p) text) = Except.ok rows)
      ↔ badCount 1 notebookSchema text ≤ 10 := by
  rw [runQuery_notebook]
  by_cases hb : badCount 1 notebookSchema text ≤ 10
  · simp [applySchema, hb]
  · simp [applySchema, hb]

/-- C4 witness: the scenario CSV has no malformed rows, so its query
succeeds. -/
theorem c4_max_bad_records_tolerance_witness :
    (∃ rows, runQuery notebookSQL (notebookDataSources (notebookDescriptor "p"))
        (writeObject [] (sampleObjectUri "p") scenarioCSV) = Except.ok rows)
      ↔ badCount 1 notebookSchema scenarioCSV ≤ 10 :=
  c4_max_bad_records_tolerance "p" scenarioCSV

/-- A successfully parsed field has the declared type. -/
lemma parseField_typeOf {t : BQType} {s : String} {v : Value}
    (h : parseField t s = some v) : v.typeOf = t := by
  cases t with
  | INTEGER =>
    cases hp : parseIntLit s.data with
    | none => simp [parseField, hp] at h
    | some i =>
      simp [parseField, hp] at h
      rw [← h]
      rfl
  | STRING =>
    simp [parseField] at h
    rw [← h]
    rfl
  | FLOAT =>
    cases hf : isFloatLit s.data with
    | false => simp [parseField, hf] at h
    | true =>
      simp [parseField, hf] at h
      rw [← h]
      rfl

/-- A row parsed against a schema matches it field by field: same length and
each value of the declared type. -/
lemma parseFields_typed : ∀ (sch : List SchemaField) (ss : List String)
    (row : List Value), parseFields sch ss = some row →
    List.Forall₂ (fun f v => Value.typeOf v = f.type) sch row := by
  intro sch
  induction sch with
  | nil =>
    intro ss row h
    cases ss with
    | nil =>
      simp [parseFields] at h
      subst h
      exact List.Forall₂.nil
    | cons a t => simp [parseFields] at h
  | cons f fs ih =>
    intro ss row h
    cases ss with
    | nil => simp [parseFields] at h
    | cons s st =>
      cases hv : parseField f.type s with
      | none => simp [parseFields, hv] at h
      | some v =>
        cases hvs : parseFields fs st with
        | none => simp [parseFields, hv, hvs] at h
        | some vs =>
          simp [parseFields, hv, hvs] at h
          rw [← h]
          exact List.Forall₂.cons (parseField_typeOf hv) (ih st vs hvs)

/-- C5 counterexample: over a 7-column CSV with a single data row, the
notebook's LIMIT-5 query returns one row, not five — so the claim's "exactly
5 rows" fails for small N. -/
theorem c5_counterexample :
    ¬ (∃ rows, runQuery notebookSQL (notebookDataSources (notebookDescriptor "p"))
        (writeObject [] (sampleObjectUri "p") scenarioCSV) = Except.ok rows
        ∧ rows.length = 5) := by
  intro h
  obtain ⟨rows, he, hl⟩ := h
  rw [show runQuery notebookSQL (notebookDataSources (notebookDescriptor "p"))
      (writeObject [] (sampleObjectUri "p") scenarioCSV)
      = Except.ok [[Value.vint 4, Value.vstr "2nd Ave & Blanchard St",
          Value.vstr "BT-05", Value.vfloat "47.61311", Value.vfloat "-122.344208",
          Value.vint 14, Value.vstr "10/13/2014"]] from rfl] at he
  injection he with he2
  rw [← he2] at hl
  exact absurd hl (by decide)

/-- C5 amended: when the CSV's malformed-row count is within the declared
tolerance (at most 10), the notebook's LIMIT-5 query succeeds and returns
exactly min(5, number of well-formed data rows) rows, each with exactly 7
fields whose types match the declared schema in order — in particular, with
at least 5 well-formed data rows it returns exactly 5 rows. -/
theorem c5_limit5_query_shape (p text : String)
    (hbad : badCount 1 notebookSchema text ≤ 10) :
    ∃ rows, runQuery notebookSQL (notebookDataSources (notebookDescriptor p))
        (writeObject [] (sampleObjectUri p) text) = Except.ok rows
      ∧ rows.length = min 5 ((parsedLines 1 notebookSchema text).filterMap id).length
      ∧ (5 ≤ ((parsedLines 1 notebookSchema text).filterMap id).length →
          rows.length = 5)
      ∧ ∀ r ∈ rows, r.length = 7
          ∧ List.Forall₂ (fun f v => Value.typeOf v = f.type) notebookSchema r := by
  have happ : applySchema 1 10 notebookSchema text
      = Except.ok ((parsedLines 1 notebookSchema text).filterMap id) := by
    simp [applySchema, hbad]
  refine ⟨((parsedLines 1 notebookSchema text).filterMap id).take 5, ?_, ?_, ?_, ?_⟩
  · rw [runQuery_notebook, happ]
  · rw [List.length_take]
  · intro h5
    rw [List.length_take]
    exact Nat.min_eq_left h5
  · intro r hr
    have hr2 : r ∈ (parsedLines 1 notebookSchema text).filterMap id :=
      List.take_subset 5 _ hr
    have hsome : some r ∈ parsedLines 1 notebookSchema text := by
      rw [List.mem_filterMap] at hr2
      obtain ⟨a, ha, hae⟩ := hr2
      simp only [id] at hae
      subst hae
      exact ha
    obtain ⟨line, hline, hpr⟩ :
        ∃ line ∈ (splitChar '\n' text).drop 1, parseRow notebookSchema line = some r := by
      unfold parsedLines at hsome
      exact List.mem_map.mp hsome
    have hF := parseFields_typed notebookSchema (splitChar ',' line) r hpr
    refine ⟨?_, hF⟩
    have hlen := hF.length_eq
    simpa using hlen.symm

/-- A 7-column CSV with five copies of the scenario data row. -/
def fiveRowCSV : String :=
  csvHeaderLine ++ "\n" ++ scenarioDataRow ++ "\n" ++ scenarioDataRow ++ "\n"
    ++ scenarioDataRow ++ "\n" ++ scenarioDataRow ++ "\n" ++ scenarioDataRow

set_option maxRecDepth 8000 in
/-- C5 witness: the concrete five-data-row CSV is within the tolerance, so
the query returns min(5, well-formed row count) schema-typed rows, which is
exactly 5 there. -/
theorem c5_limit5_query_shape_witness :
    ∃ rows, runQuery notebookSQL (notebookDataSources (notebookDescriptor "p"))
        (writeObject [] (sampleObjectUri "p") fiveRowCSV) = Except.ok rows
      ∧ rows.length
          = min 5 ((parsedLines 1 notebookSchema fiveRowCSV).filterMap id).length
      ∧ (5 ≤ ((parsedLines 1 notebookSchema fiveRowCSV).filterMap id).length →
          rows.length = 5)
      ∧ ∀ r ∈ rows, r.length = 7
          ∧ List.Forall₂ (fun f v => Value.typeOf v = f.type) notebookSchema r :=
  c5_limit5_query_shape "p" fiveRowCSV (by decide)
